import Mathlib

/-!
# Verification of the protected-blit tool (`blit.c`)

Shallow embedding of the protected-memory blit program: a one-shot
transfer of decoded image pixels host → source buffer → protected image →
destination buffer → host, driven by a single Vulkan command buffer.

The embedding follows the C source:
* `find_image_memory` — the memory-type classifier (C lines 55–67),
  including its exact loop guard `(1u << i) <= allowed && i <= memoryTypeCount`
  and its flag test `propertyFlags & flags` (a nonzero-intersection test).
  Machine integers are modelled as `Nat`; `allowed` is a 32-bit `unsigned`
  in C, so theorems that depend on the width carry `allowed < 2 ^ 32`.
  The loop guard forces `i ≤ 32` for any 32-bit `allowed`, so a fuel of 33
  makes the fuel-based recursion coincide with the C loop on all 32-bit
  inputs (the guard, never the fuel, ends the scan).
* the recorded command sequence (barrier / copy / barrier / copy) with its
  layout transitions, and a per-texel semantics of the two copies;
* the straight-line sequence of host API calls of `main`, `init_vk`,
  `init_image` and `write_image_output` as an event trace, with an
  execution model that aborts exactly at the calls whose results the
  source actually checks (and runs on past the failures it discards).
-/

/-! ## Vulkan constants used by the source -/

def VK_MEMORY_PROPERTY_DEVICE_LOCAL_BIT : Nat := 0x1

def VK_MEMORY_PROPERTY_HOST_VISIBLE_BIT : Nat := 0x2

def VK_MEMORY_PROPERTY_PROTECTED_BIT : Nat := 0x20

def VK_BUFFER_USAGE_TRANSFER_SRC_BIT : Nat := 0x1

def VK_BUFFER_USAGE_TRANSFER_DST_BIT : Nat := 0x2

def VK_IMAGE_USAGE_TRANSFER_SRC_BIT : Nat := 0x1

def VK_IMAGE_USAGE_TRANSFER_DST_BIT : Nat := 0x2

def VK_SHARING_MODE_EXCLUSIVE : Nat := 0

def VK_IMAGE_TYPE_2D : Nat := 1

def VK_FORMAT_R8G8B8A8_UNORM : Nat := 37

def VK_IMAGE_TILING_OPTIMAL : Nat := 0

def VK_IMAGE_CREATE_PROTECTED_BIT : Nat := 0x800

def VK_PIPELINE_STAGE_TRANSFER_BIT : Nat := 0x1000

def VK_ACCESS_TRANSFER_READ_BIT : Nat := 0x800

def VK_ACCESS_TRANSFER_WRITE_BIT : Nat := 0x1000

def VK_IMAGE_ASPECT_COLOR_BIT : Nat := 0x1

def VK_COMMAND_POOL_CREATE_RESET_COMMAND_BUFFER_BIT : Nat := 0x2

def VK_COMMAND_POOL_CREATE_PROTECTED_BIT : Nat := 0x4

/-! ## Memory classifier (`find_image_memory`, C lines 55–67) -/

/-- The device's memory-type table (`VkPhysicalDeviceMemoryProperties`):
`memoryTypeCount` valid entries; `memoryTypes i` is `memoryTypes[i].propertyFlags`
(the C array has `VK_MAX_MEMORY_TYPES` slots, so reads beyond
`memoryTypeCount` return whatever the slot holds — modelled by the total
function). -/
structure MemoryProperties where
  memoryTypeCount : Nat
  memoryTypes : Nat → Nat

/-- The required property flags computed at the top of `find_image_memory`:
`DEVICE_LOCAL | (host ? HOST_VISIBLE : 0) | (prot ? PROTECTED : 0)`. -/
def find_image_memory_flags (host prot : Bool) : Nat :=
  VK_MEMORY_PROPERTY_DEVICE_LOCAL_BIT |||
  (if host then VK_MEMORY_PROPERTY_HOST_VISIBLE_BIT else 0) |||
  (if prot then VK_MEMORY_PROPERTY_PROTECTED_BIT else 0)

/-- The scan loop of `find_image_memory` (C lines 62–65):
`for (i = 0; (1u << i) <= allowed && i <= memoryTypeCount; ++i)
   if ((allowed & (1u << i)) && (memoryTypes[i].propertyFlags & flags)) return i;
 return -1;`
Fuel-based recursion; for 32-bit `allowed` the guard stops the loop at
`i ≤ 32`, so the fuel of 33 used below is never exhausted. -/
def findLoop (mp : MemoryProperties) (allowed flags : Nat) : Nat → Nat → Int
  | _, 0 => -1
  | i, fuel + 1 =>
    if 1 <<< i ≤ allowed ∧ i ≤ mp.memoryTypeCount then
      if allowed &&& (1 <<< i) ≠ 0 ∧ mp.memoryTypes i &&& flags ≠ 0 then
        Int.ofNat i
      else
        findLoop mp allowed flags (i + 1) fuel
    else
      -1

/-- `find_image_memory(vc, allowed, host, protected)` (C lines 55–67),
returning the selected memory type index or `-1`. -/
def find_image_memory (mp : MemoryProperties) (allowed : Nat) (host prot : Bool) : Int :=
  findLoop mp allowed (find_image_memory_flags host prot) 0 33

/-- The indices at which the scan of `find_image_memory` reads
`memoryTypes[i].propertyFlags`: the read in the loop body happens exactly
when the short-circuit `allowed & (1u << i)` test is nonzero, and the loop
continues past `i` exactly when the subsequent flag test is zero. -/
def scanReadsLoop (mp : MemoryProperties) (allowed flags : Nat) : Nat → Nat → List Nat
  | _, 0 => []
  | i, fuel + 1 =>
    if 1 <<< i ≤ allowed ∧ i ≤ mp.memoryTypeCount then
      if allowed &&& (1 <<< i) ≠ 0 then
        if mp.memoryTypes i &&& flags ≠ 0 then
          [i]
        else
          i :: scanReadsLoop mp allowed flags (i + 1) fuel
      else
        scanReadsLoop mp allowed flags (i + 1) fuel
    else
      []

/-- The table reads performed by one call to `find_image_memory`. -/
def find_image_memory_reads (mp : MemoryProperties) (allowed : Nat) (host prot : Bool) :
    List Nat :=
  scanReadsLoop mp allowed (find_image_memory_flags host prot) 0 33

/-- Modelled from the spec (§4.2), for comparison with the code's
`find_image_memory`: a candidate `i` is eligible only if bit `i` is set in
`allowed` AND its property flags INCLUDE device-local, host-visible if
requested, and protected if requested (i.e. `flags' &&& flags = flags`);
the first eligible index in table order is returned, and `-1` when the
scan exhausts the table. -/
def select_memory_type_spec (mp : MemoryProperties) (allowed : Nat) (host prot : Bool) : Int :=
  let flags := find_image_memory_flags host prot
  match (List.range mp.memoryTypeCount).find?
      (fun i => allowed &&& (1 <<< i) != 0 && mp.memoryTypes i &&& flags == flags) with
  | some i => Int.ofNat i
  | none => -1

/-! ### Concrete memory-type tables used as inputs -/

/-- A one-entry table whose only entry is host-visible but NOT
device-local (`propertyFlags = HOST_VISIBLE`). -/
def mpHostOnly : MemoryProperties :=
  { memoryTypeCount := 1, memoryTypes := fun _ => VK_MEMORY_PROPERTY_HOST_VISIBLE_BIT }

/-- A one-entry table whose only entry has no property flags at all. -/
def mpEmptyFlags : MemoryProperties :=
  { memoryTypeCount := 1, memoryTypes := fun _ => 0 }

/-- A one-entry table whose only entry is device-local. -/
def mpDeviceLocal : MemoryProperties :=
  { memoryTypeCount := 1, memoryTypes := fun _ => VK_MEMORY_PROPERTY_DEVICE_LOCAL_BIT }

/-! ### Lemmas about the scan -/

/-- Whenever the loop returns a non-negative index, the corresponding bit
of `allowed` is set. -/
theorem findLoop_bit_set (mp : MemoryProperties) (allowed flags : Nat) :
    ∀ (fuel i j : Nat), findLoop mp allowed flags i fuel = Int.ofNat j →
      allowed &&& (1 <<< j) ≠ 0 := by
  intro fuel
  induction fuel with
  | zero =>
    intro i j h
    simp [findLoop] at h
  | succ fuel ih =>
    intro i j h
    rw [findLoop] at h
    by_cases hg : 1 <<< i ≤ allowed ∧ i ≤ mp.memoryTypeCount
    · rw [if_pos hg] at h
      by_cases hb : allowed &&& (1 <<< i) ≠ 0 ∧ mp.memoryTypes i &&& flags ≠ 0
      · rw [if_pos hb] at h
        have hij : i = j := Int.ofNat.inj h
        exact hij ▸ hb.1
      · rw [if_neg hb] at h
        exact ih (i + 1) j h
    · rw [if_neg hg] at h
      simp at h

/-- **C10** — whenever `find_image_memory` returns a non-negative index
`i`, bit `i` is set in the allowed mask; and for an allowed mask of `0`
it returns the not-found sentinel `-1`, for every table and request pair. -/
theorem find_image_memory_respects_allowed_mask
    (mp : MemoryProperties) (allowed : Nat) (host prot : Bool) :
    (∀ i : Nat, find_image_memory mp allowed host prot = Int.ofNat i →
      allowed &&& (1 <<< i) ≠ 0) ∧
    (allowed = 0 → find_image_memory mp allowed host prot = -1) := by
  constructor
  · intro i h
    exact findLoop_bit_set mp allowed (find_image_memory_flags host prot) 33 0 i h
  · intro h
    subst h
    rfl

/-- Witness for C10: on a one-entry device-local table with allowed mask
`1`, the classifier returns index 0 and bit 0 is indeed set; with allowed
mask `0` it returns `-1`. -/
theorem find_image_memory_respects_allowed_mask_witness :
    (1 : Nat) &&& (1 <<< 0) ≠ 0 ∧ find_image_memory mpDeviceLocal 0 false false = -1 :=
  ⟨(find_image_memory_respects_allowed_mask mpDeviceLocal 1 false false).1 0 (by decide),
   (find_image_memory_respects_allowed_mask mpDeviceLocal 0 false false).2 rfl⟩

/-- **C2** (code bug evidence) — on a table whose only entry is
host-visible but not device-local, with allowed mask `1` and request
`(host := true, protected := false)`, the code returns index 0 even
though the entry lacks the required device-local flag (the C test
`propertyFlags & flags` accepts any nonzero intersection), while the
spec's all-flags classifier returns `-1`. -/
theorem find_image_memory_any_flag_divergence :
    find_image_memory mpHostOnly 1 true false = Int.ofNat 0 ∧
    mpHostOnly.memoryTypes 0 &&& VK_MEMORY_PROPERTY_DEVICE_LOCAL_BIT = 0 ∧
    select_memory_type_spec mpHostOnly 1 true false = -1 := by
  refine ⟨by decide, by decide, by decide⟩

/-- **C9** (code bug evidence) — with a one-entry table and allowed mask
`0b10`, the scan reads `memoryTypes[1]`, one entry past the table (the C
loop guard is `i <= memoryTypeCount` instead of `i < memoryTypeCount`). -/
theorem find_image_memory_out_of_table_read :
    find_image_memory_reads mpEmptyFlags 2 false false = [1] ∧
    ¬ (1 < mpEmptyFlags.memoryTypeCount) := by
  refine ⟨by decide, by decide⟩

/-! ## The recorded command sequence (C lines 300–388) -/

/-- Image layouts reachable in this program (`VkImageLayout`). -/
inductive Layout
  | undefined
  | transferDstOptimal
  | transferSrcOptimal
deriving DecidableEq

/-- `VkExtent3D`. -/
structure Extent3D where
  width : Nat
  height : Nat
  depth : Nat
deriving DecidableEq

/-- `VkOffset3D` (the source only ever uses `{0,0,0}`, so coordinates are
modelled as `Nat`). -/
structure Offset3D where
  x : Nat
  y : Nat
  z : Nat
deriving DecidableEq

/-- `VkImageSubresourceLayers`. -/
structure ImageSubresourceLayers where
  aspectMask : Nat
  mipLevel : Nat
  baseArrayLayer : Nat
  layerCount : Nat
deriving DecidableEq

/-- `VkBufferImageCopy` (offsets and lengths in texels; the pixel format
is 4-byte RGBA and the source passes texel-aligned values). -/
structure BufferImageCopy where
  bufferOffset : Nat
  bufferRowLength : Nat
  bufferImageHeight : Nat
  imageSubresource : ImageSubresourceLayers
  imageOffset : Offset3D
  imageExtent : Extent3D
deriving DecidableEq

/-- The two buffers of the program, as barrier targets. -/
inductive Buf
  | srcBuffer
  | dstBuffer
deriving DecidableEq

/-- `VkBufferMemoryBarrier` (the `size` field is always `VK_WHOLE_SIZE`
in the source and is omitted). -/
structure BufferMemoryBarrier where
  srcAccessMask : Nat
  dstAccessMask : Nat
  buffer : Buf
  offset : Nat
deriving DecidableEq

/-- `VkImageMemoryBarrier` for the single image `dst_image` (the
subresource range is always the full single-level color range in the
source and is omitted). -/
structure ImageMemoryBarrier where
  srcAccessMask : Nat
  dstAccessMask : Nat
  oldLayout : Layout
  newLayout : Layout
deriving DecidableEq

/-- The commands recorded into the command buffer. -/
inductive Cmd
  | pipelineBarrier (srcStageMask dstStageMask : Nat)
      (bufferBarriers : List BufferMemoryBarrier)
      (imageBarriers : List ImageMemoryBarrier)
  | copyBufferToImage (dstImageLayout : Layout) (regions : List BufferImageCopy)
  | copyImageToBuffer (srcImageLayout : Layout) (regions : List BufferImageCopy)
deriving DecidableEq

/-- The exact command sequence recorded by `main` (C lines 306–386):
barrier (source buffer + image Undefined→TransferDstOptimal), buffer→image
copy, barrier (destination buffer + image TransferDstOptimal→
TransferSrcOptimal), image→buffer copy. The two copy regions are written
out separately, exactly as the two struct literals in the source. -/
def recordedCmds (w h : Nat) : List Cmd :=
  [ Cmd.pipelineBarrier VK_PIPELINE_STAGE_TRANSFER_BIT VK_PIPELINE_STAGE_TRANSFER_BIT
      [{ srcAccessMask := 0, dstAccessMask := VK_ACCESS_TRANSFER_READ_BIT,
         buffer := Buf.srcBuffer, offset := 0 }]
      [{ srcAccessMask := 0, dstAccessMask := VK_ACCESS_TRANSFER_WRITE_BIT,
         oldLayout := Layout.undefined, newLayout := Layout.transferDstOptimal }],
    Cmd.copyBufferToImage Layout.transferDstOptimal
      [{ bufferOffset := 0, bufferRowLength := w, bufferImageHeight := h,
         imageSubresource := { aspectMask := VK_IMAGE_ASPECT_COLOR_BIT, mipLevel := 0,
                               baseArrayLayer := 0, layerCount := 1 },
         imageOffset := { x := 0, y := 0, z := 0 },
         imageExtent := { width := w, height := h, depth := 1 } }],
    Cmd.pipelineBarrier VK_PIPELINE_STAGE_TRANSFER_BIT VK_PIPELINE_STAGE_TRANSFER_BIT
      [{ srcAccessMask := 0, dstAccessMask := VK_ACCESS_TRANSFER_WRITE_BIT,
         buffer := Buf.dstBuffer, offset := 0 }]
      [{ srcAccessMask := VK_ACCESS_TRANSFER_WRITE_BIT,
         dstAccessMask := VK_ACCESS_TRANSFER_READ_BIT,
         oldLayout := Layout.transferDstOptimal, newLayout := Layout.transferSrcOptimal }],
    Cmd.copyImageToBuffer Layout.transferSrcOptimal
      [{ bufferOffset := 0, bufferRowLength := w, bufferImageHeight := h,
         imageSubresource := { aspectMask := VK_IMAGE_ASPECT_COLOR_BIT, mipLevel := 0,
                               baseArrayLayer := 0, layerCount := 1 },
         imageOffset := { x := 0, y := 0, z := 0 },
         imageExtent := { width := w, height := h, depth := 1 } }] ]

/-! ## Device-side semantics of the command sequence -/

/-- Device state during execution of the command buffer: the contents of
the two buffers and the image (texel-addressed; a texel value is a `Nat`),
plus the image's current layout. -/
structure DeviceState where
  srcBuf : Nat → Nat
  img : Nat → Nat → Nat
  imgLayout : Layout
  dstBuf : Nat → Nat

/-- Effective buffer row length of a copy region: a `bufferRowLength` of 0
means tightly packed (the extent width). -/
def effRowLength (r : BufferImageCopy) : Nat :=
  if r.bufferRowLength = 0 then r.imageExtent.width else r.bufferRowLength

/-- One region of `vkCmdCopyBufferToImage`: each texel (x, y) inside the
destination window receives the buffer texel at
`bufferOffset + (y - offY) * rowLength + (x - offX)`. -/
def copyB2IRegion (st : DeviceState) (r : BufferImageCopy) : DeviceState :=
  { st with img := fun x y =>
      if r.imageOffset.x ≤ x ∧ x < r.imageOffset.x + r.imageExtent.width ∧
         r.imageOffset.y ≤ y ∧ y < r.imageOffset.y + r.imageExtent.height then
        st.srcBuf (r.bufferOffset + ((y - r.imageOffset.y) * effRowLength r
          + (x - r.imageOffset.x)))
      else
        st.img x y }

/-- One region of `vkCmdCopyImageToBuffer`: each buffer texel index laid
out by the region receives the corresponding image texel. -/
def copyI2BRegion (st : DeviceState) (r : BufferImageCopy) : DeviceState :=
  { st with dstBuf := fun i =>
      if r.bufferOffset ≤ i ∧ (i - r.bufferOffset) % effRowLength r < r.imageExtent.width ∧
         (i - r.bufferOffset) / effRowLength r < r.imageExtent.height then
        st.img (r.imageOffset.x + (i - r.bufferOffset) % effRowLength r)
               (r.imageOffset.y + (i - r.bufferOffset) / effRowLength r)
      else
        st.dstBuf i }

/-- Apply the image memory barriers of a pipeline barrier: each barrier's
`oldLayout` must be `Undefined` or match the image's current layout
(Vulkan's validity rule), and the image moves to `newLayout`. -/
def applyImageBarriers : DeviceState → List ImageMemoryBarrier → Option DeviceState
  | st, [] => some st
  | st, b :: bs =>
    if b.oldLayout = Layout.undefined ∨ b.oldLayout = st.imgLayout then
      applyImageBarriers { st with imgLayout := b.newLayout } bs
    else
      none

/-- Execute one command. Copy commands require their declared image layout
to match the image's current layout (Vulkan's validity rule); a mismatch
is a fault (`none`). -/
def execCmd (st : DeviceState) : Cmd → Option DeviceState
  | Cmd.pipelineBarrier _ _ _ imgBs => applyImageBarriers st imgBs
  | Cmd.copyBufferToImage lay rs =>
    if lay = st.imgLayout then some (rs.foldl copyB2IRegion st) else none
  | Cmd.copyImageToBuffer lay rs =>
    if lay = st.imgLayout then some (rs.foldl copyI2BRegion st) else none

/-- Execute a command list in order, stopping at the first fault. -/
def execCmds : DeviceState → List Cmd → Option DeviceState
  | st, [] => some st
  | st, c :: cs => (execCmd st c).bind (fun st2 => execCmds st2 cs)

/-- The state in which the command buffer starts executing: the host has
written the decoded pixels into the source buffer; the protected image's
content is undefined (arbitrary `img0`) and its layout is `Undefined`;
the destination buffer's content is arbitrary (`dst0`). -/
def initDeviceState (src : Nat → Nat) (img0 : Nat → Nat → Nat) (dst0 : Nat → Nat) :
    DeviceState :=
  { srcBuf := src, img := img0, imgLayout := Layout.undefined, dstBuf := dst0 }

/-- The device-side result of the single submission. -/
def runTransfer (w h : Nat) (src : Nat → Nat) (img0 : Nat → Nat → Nat) (dst0 : Nat → Nat) :
    Option DeviceState :=
  execCmds (initDeviceState src img0 dst0) (recordedCmds w h)

/-! ## Structural views of the command sequence -/

/-- The kind of a recorded command. -/
inductive CmdTag
  | barrier
  | b2i
  | i2b
deriving DecidableEq

/-- Tag of a command. -/
def cmdTag : Cmd → CmdTag
  | Cmd.pipelineBarrier _ _ _ _ => CmdTag.barrier
  | Cmd.copyBufferToImage _ _ => CmdTag.b2i
  | Cmd.copyImageToBuffer _ _ => CmdTag.i2b

/-- Whether a command is a pipeline barrier. -/
def isBarrierCmd : Cmd → Bool
  | Cmd.pipelineBarrier _ _ _ _ => true
  | _ => false

/-- Whether a command is one of the two copy commands. -/
def isCopyCmd : Cmd → Bool
  | Cmd.copyBufferToImage _ _ => true
  | Cmd.copyImageToBuffer _ _ => true
  | _ => false

/-- The (oldLayout, newLayout) pairs declared by the image barriers of a
command list, in order. -/
def imageTransitions : List Cmd → List (Layout × Layout)
  | [] => []
  | Cmd.pipelineBarrier _ _ _ imgBs :: rest =>
    imgBs.map (fun b => (b.oldLayout, b.newLayout)) ++ imageTransitions rest
  | _ :: rest => imageTransitions rest

/-- The image's layout after each successfully executed command. -/
def layoutTrace : DeviceState → List Cmd → List Layout
  | _, [] => []
  | st, c :: cs =>
    match execCmd st c with
    | some st2 => st2.imgLayout :: layoutTrace st2 cs
    | none => []

/-- Collapse adjacent duplicates of a layout list (the distinct states
visited, in order). -/
def collapseAdj : List Layout → List Layout
  | [] => []
  | [a] => [a]
  | a :: b :: rest =>
    if a = b then collapseAdj (b :: rest) else a :: collapseAdj (b :: rest)

/-- The region lists of the copy commands of a command list, in order. -/
def copyRegionsOf : List Cmd → List (List BufferImageCopy)
  | [] => []
  | Cmd.copyBufferToImage _ rs :: rest => rs :: copyRegionsOf rest
  | Cmd.copyImageToBuffer _ rs :: rest => rs :: copyRegionsOf rest
  | _ :: rest => copyRegionsOf rest

/-- **C3** — the recorded sequence is exactly barrier, buffer→image copy,
barrier, image→buffer copy (two barriers, two copies); the image barriers
declare Undefined→TransferDstOptimal then TransferDstOptimal→
TransferSrcOptimal; and executing the sequence from any initial contents
visits exactly the layouts Undefined, TransferDstOptimal,
TransferSrcOptimal, in that order, each entered once (no re-entry). -/
theorem recorded_sequence_barrier_copy_order (w h : Nat)
    (src : Nat → Nat) (img0 : Nat → Nat → Nat) (dst0 : Nat → Nat) :
    (recordedCmds w h).map cmdTag = [CmdTag.barrier, CmdTag.b2i, CmdTag.barrier, CmdTag.i2b] ∧
    (recordedCmds w h).countP isBarrierCmd = 2 ∧
    (recordedCmds w h).countP isCopyCmd = 2 ∧
    imageTransitions (recordedCmds w h) =
      [(Layout.undefined, Layout.transferDstOptimal),
       (Layout.transferDstOptimal, Layout.transferSrcOptimal)] ∧
    collapseAdj (Layout.undefined ::
        layoutTrace (initDeviceState src img0 dst0) (recordedCmds w h)) =
      [Layout.undefined, Layout.transferDstOptimal, Layout.transferSrcOptimal] := by
  refine ⟨rfl, rfl, rfl, rfl, rfl⟩

/-- **C6** — the two copy commands carry exactly the same single region:
offset 0, buffer row length = decoded width, buffer image height =
decoded height, image offset (0,0,0), full extent width × height × 1. -/
theorem copy_regions_full_extent_and_equal (w h : Nat) :
    ∃ r : BufferImageCopy,
      copyRegionsOf (recordedCmds w h) = [[r], [r]] ∧
      r.bufferOffset = 0 ∧ r.bufferRowLength = w ∧ r.bufferImageHeight = h ∧
      r.imageOffset = { x := 0, y := 0, z := 0 } ∧
      r.imageExtent = { width := w, height := h, depth := 1 } := by
  exact ⟨_, rfl, rfl, rfl, rfl, rfl, rfl⟩

/-! ## Pixel round-trip (the full pipeline, C1) -/

/-- A decoded image as produced by the external decoder: width, height,
and texels in row-major order (`pix (y * width + x)` is the texel at
(x, y); for 8-bit RGBA input the row stride is `width` texels). -/
structure DecodedImage where
  width : Nat
  height : Nat
  pix : Nat → Nat

/-- Whether the submitted command buffer executes without a validation
fault (the device reaches an idle state with all commands retired). -/
def pipelineOk (input : DecodedImage) : Bool :=
  (runTransfer input.width input.height input.pix (fun _ _ => 0) (fun _ => 0)).isSome

/-- The full pipeline at the decoded-pixel level: the host writes the
decoded texels into the source buffer (`write_image_output`'s
`memcpy`), the device executes the recorded command sequence, and the
host hands the mapped destination buffer with the input's width and
height to the encoder (`write_image_output`). Decoder and encoder are
the external collaborators of the spec and are treated as faithful
interfaces. -/
def runPipeline (input : DecodedImage) : DecodedImage :=
  { width := input.width,
    height := input.height,
    pix := ((runTransfer input.width input.height input.pix (fun _ _ => 0) (fun _ => 0)).getD
      (initDeviceState input.pix (fun _ _ => 0) (fun _ => 0))).dstBuf }

/-- **C1** — for every decoded input, the pipeline executes without fault
and the output decodes to the same width, height and pixel content: the
transfer is a pure copy. -/
theorem pipeline_pixel_roundtrip (input : DecodedImage) :
    pipelineOk input = true ∧
    (runPipeline input).width = input.width ∧
    (runPipeline input).height = input.height ∧
    ∀ x y, x < input.width → y < input.height →
      (runPipeline input).pix (y * input.width + x) = input.pix (y * input.width + x) := by
  obtain ⟨w, h, pix⟩ := input
  refine ⟨rfl, rfl, rfl, ?_⟩
  intro x y hx hy
  have hw : 0 < w := Nat.lt_of_le_of_lt (Nat.zero_le x) hx
  have hmod : (y * w + x) % w = x := by
    rw [Nat.mul_comm, Nat.mul_add_mod]
    exact Nat.mod_eq_of_lt hx
  have hdiv : (y * w + x) / w = y := by
    rw [Nat.mul_comm, Nat.mul_add_div hw, Nat.div_eq_of_lt hx, Nat.add_zero]
  simp only [runPipeline, runTransfer, recordedCmds, execCmds, execCmd, applyImageBarriers,
    initDeviceState, copyB2IRegion, copyI2BRegion, effRowLength, List.foldl,
    Option.bind_eq_bind, Option.some_bind, Option.getD_some]
  simp [hmod, hdiv, hx, hy]

/-- The 2×1 end-to-end image of the spec's scenario:
pixels (255,0,0,255) and (0,255,0,255). -/
def img2x1 : DecodedImage :=
  { width := 2, height := 1,
    pix := fun i => if i = 0 then 0xFF0000FF else if i = 1 then 0x00FF00FF else 0 }

/-- Witness for C1: on the concrete 2×1 image the pipeline succeeds and
returns the second pixel unchanged. -/
theorem pipeline_pixel_roundtrip_witness :
    (1 < img2x1.width ∧ 0 < img2x1.height) ∧
    (runPipeline img2x1).pix (0 * img2x1.width + 1) = img2x1.pix (0 * img2x1.width + 1) :=
  ⟨⟨by decide, by decide⟩,
   (pipeline_pixel_roundtrip img2x1).2.2.2 1 0 (by decide) (by decide)⟩

/-! ## Host-side call trace of `main` -/

/-- The three device-memory regions allocated by `init_image`
(`src_mem`, `dst_image_mem`, `dst_mem`). -/
inductive Region
  | srcMem
  | dstImageMem
  | dstMem
deriving DecidableEq

/-- One host-side API call or host action, in program order, with the
arguments the claims are about. -/
inductive Step
  | createInstance
  | enumeratePhysicalDevices
  | getPhysicalDeviceFeatures2
  | getPhysicalDeviceProperties
  | getPhysicalDeviceMemoryProperties
  | getQueueFamilyProperties
  | createDevice (queueFamilyIndex queueCount : Nat) (protectedQueue : Bool)
  | getDeviceQueue
  | decodeInputFile
  | createBuffer (size usage sharingMode : Nat)
  | getBufferMemoryRequirements
  | allocateMemory (region : Region) (allocationSize : Nat) (memoryTypeIndex : Int)
  | bindBufferMemory (region : Region) (offset : Nat)
  | mapMemory (region : Region) (offset size : Nat)
  | memcpyToMapped (size : Nat)
  | unmapMemory (region : Region)
  | unrefPixbuf
  | createImage (imageType format : Nat) (extent : Extent3D)
      (mipLevels arrayLayers samples tiling usage flags : Nat)
  | getImageMemoryRequirements
  | bindImageMemory (region : Region) (offset : Nat)
  | createCommandPool (queueFamilyIndex flags : Nat)
  | allocateCommandBuffers (count : Nat)
  | beginCommandBuffer
  | record (c : Cmd)
  | endCommandBuffer
  | queueSubmit (submitCount cmdBufferCount : Nat)
  | deviceWaitIdle
  | newPixbufFromMappedData (width height rowStride : Nat)
  | savePng
deriving DecidableEq

/-- Run-time inputs that the host trace depends on: the device's
memory-type table, the decoded image's dimensions/stride/byte length, and
the driver-reported memory requirements (size, memoryTypeBits) of the
three resources. -/
structure Env where
  mp : MemoryProperties
  width : Nat
  height : Nat
  row_stride : Nat
  size : Nat
  srcReqSize : Nat
  srcReqBits : Nat
  imgReqSize : Nat
  imgReqBits : Nat
  dstReqSize : Nat
  dstReqBits : Nat

/-- The calls of `init_vk` (C lines 69–137), in order. -/
def init_vk_steps : List Step :=
  [ Step.createInstance,
    Step.enumeratePhysicalDevices,
    Step.getPhysicalDeviceFeatures2,
    Step.getPhysicalDeviceProperties,
    Step.getPhysicalDeviceMemoryProperties,
    Step.getQueueFamilyProperties,
    Step.createDevice 0 1 true,
    Step.getDeviceQueue ]

/-- The calls of `init_image` (C lines 139–243), in order: decode; source
buffer (create, query requirements, allocate via the classifier with
host-visible requested and protected not requested, bind at 0, map,
memcpy, unmap); protected image (create with the protected flag, query,
allocate via the classifier with protected requested, bind at 0);
destination buffer (create, query, allocate, bind at 0). -/
def init_image_steps (env : Env) : List Step :=
  [ Step.decodeInputFile,
    Step.createBuffer env.size VK_BUFFER_USAGE_TRANSFER_SRC_BIT VK_SHARING_MODE_EXCLUSIVE,
    Step.getBufferMemoryRequirements,
    Step.allocateMemory Region.srcMem env.srcReqSize
      (find_image_memory env.mp env.srcReqBits true false),
    Step.bindBufferMemory Region.srcMem 0,
    Step.mapMemory Region.srcMem 0 env.size,
    Step.memcpyToMapped env.size,
    Step.unmapMemory Region.srcMem,
    Step.unrefPixbuf,
    Step.createImage VK_IMAGE_TYPE_2D VK_FORMAT_R8G8B8A8_UNORM
      { width := env.width, height := env.height, depth := 1 } 1 1 1
      VK_IMAGE_TILING_OPTIMAL
      (VK_IMAGE_USAGE_TRANSFER_SRC_BIT ||| VK_IMAGE_USAGE_TRANSFER_DST_BIT)
      VK_IMAGE_CREATE_PROTECTED_BIT,
    Step.getImageMemoryRequirements,
    Step.allocateMemory Region.dstImageMem env.imgReqSize
      (find_image_memory env.mp env.imgReqBits false true),
    Step.bindImageMemory Region.dstImageMem 0,
    Step.createBuffer env.size VK_BUFFER_USAGE_TRANSFER_DST_BIT VK_SHARING_MODE_EXCLUSIVE,
    Step.getBufferMemoryRequirements,
    Step.allocateMemory Region.dstMem env.dstReqSize
      (find_image_memory env.mp env.dstReqBits true false),
    Step.bindBufferMemory Region.dstMem 0 ]

/-- The calls of `write_image_output` (C lines 245–266), in order: map the
destination buffer, wrap the mapped pointer as a pixbuf with the input's
width/height/stride, save as PNG, unmap. -/
def write_image_output_steps (env : Env) : List Step :=
  [ Step.mapMemory Region.dstMem 0 env.size,
    Step.newPixbufFromMappedData env.width env.height env.row_stride,
    Step.savePng,
    Step.unmapMemory Region.dstMem ]

/-- The full straight-line call sequence of `main` once the argument
check has passed (C lines 277–402). -/
def mainSteps (env : Env) : List Step :=
  init_vk_steps ++ init_image_steps env ++
  [ Step.createCommandPool 0
      (VK_COMMAND_POOL_CREATE_RESET_COMMAND_BUFFER_BIT ||| VK_COMMAND_POOL_CREATE_PROTECTED_BIT),
    Step.allocateCommandBuffers 1,
    Step.beginCommandBuffer ] ++
  (recordedCmds env.width env.height).map Step.record ++
  [ Step.endCommandBuffer,
    Step.queueSubmit 1 1,
    Step.deviceWaitIdle ] ++
  write_image_output_steps env

/-! ## Execution of the host trace

The source checks the outcome of only a handful of its calls: the
`g_assert`s of `init_vk` (C lines 87, 102, 111, 114), the pixbuf decode
(C lines 145–148, `g_error` + `exit(-1)`) and the `gdk_pixbuf_save` call
(C lines 262–263, `g_error`). Every other call's result — including every
`VkResult` of `init_image` and of the command/submission sequence, e.g.
`vkQueueSubmit` at C line 390 — is discarded, and execution continues
past a failure of such a call. The run model below aborts exactly at the
first failing *checked* call. -/

/-- Process outcome. `g_error` writes its message to standard error and
terminates the process abnormally; a run that is never stopped by a
checked failure falls through to `return 0`. -/
inductive Outcome
  | ok
  | usageError (msg : String)
  | fatalAbort
deriving DecidableEq

/-- Whether the process exits with status zero. -/
def exitStatusZero : Outcome → Bool
  | Outcome.ok => true
  | _ => false

/-- The `g_error` message of the argument check (C line 275). -/
def usageMsg : String := "Require 2 arguments : input_file output_file"

/-- Whether the source inspects the outcome of this call and aborts on
failure: the asserted calls of `init_vk` (device enumeration, the
protected-memory feature query, the queue-family query), the pixbuf
decode, and the PNG save. All other calls' results are discarded. -/
def checksResult : Step → Bool
  | Step.enumeratePhysicalDevices => true
  | Step.getPhysicalDeviceFeatures2 => true
  | Step.getQueueFamilyProperties => true
  | Step.decodeInputFile => true
  | Step.savePng => true
  | _ => false

/-- Number of steps executed before the first failing checked call,
where `f i` says whether the `i`-th call fails. A failing call whose
result the source discards still executes and execution continues. -/
def execLen (f : Nat → Bool) : Nat → List Step → Nat
  | _, [] => 0
  | i, s :: rest => if f i && checksResult s then 0 else execLen f (i + 1) rest + 1

/-- The steps that actually execute in a run with failure oracle `f`:
the prefix before the first failing checked call. -/
def runTrace (f : Nat → Bool) (steps : List Step) : List Step :=
  steps.take (execLen f 0 steps)

/-- The outcome of a run: `ok` (exit status 0) unless a checked call
failed and aborted the run. -/
def runOutcome (f : Nat → Bool) (steps : List Step) : Outcome :=
  if execLen f 0 steps = steps.length then Outcome.ok else Outcome.fatalAbort

/-- `main` (C lines 268–403): with fewer than 3 `argv` entries (fewer
than two positional arguments) it calls `g_error` before anything else;
otherwise it executes the straight-line call sequence. -/
def mainRun (argc : Nat) (env : Env) (f : Nat → Bool) : List Step × Outcome :=
  if argc < 3 then ([], Outcome.usageError usageMsg)
  else (runTrace f (mainSteps env), runOutcome f (mainSteps env))

/-- A concrete run-time environment for witnesses: a 2×1 RGBA image
(stride 8, 8 bytes) on a device with a single device-local memory type. -/
def env0 : Env :=
  { mp := mpDeviceLocal, width := 2, height := 1, row_stride := 8, size := 8,
    srcReqSize := 8, srcReqBits := 1, imgReqSize := 8, imgReqBits := 1,
    dstReqSize := 8, dstReqBits := 1 }

/-! ### Step predicates and extractions -/

/-- The memory region argument of a `vkMapMemory` call, if the step is one. -/
def mappedRegion : Step → Option Region
  | Step.mapMemory r _ _ => some r
  | _ => none

/-- Whether a step is the `vkQueueSubmit` call. -/
def isQueueSubmit : Step → Bool
  | Step.queueSubmit _ _ => true
  | _ => false

/-- Whether a step is the `vkDeviceWaitIdle` call. -/
def isDeviceWaitIdle : Step → Bool
  | Step.deviceWaitIdle => true
  | _ => false

/-- Whether a step is the `gdk_pixbuf_save` call that writes the output
file. -/
def isSavePng : Step → Bool
  | Step.savePng => true
  | _ => false

/-- Whether a step creates one of the three transfer resources. -/
def isResourceCreation : Step → Bool
  | Step.createBuffer _ _ _ => true
  | Step.createImage _ _ _ _ _ _ _ _ _ => true
  | _ => false

/-- The (region, allocationSize, memoryTypeIndex) of a `vkAllocateMemory`
call, if the step is one. -/
def allocationOf : Step → Option (Region × Nat × Int)
  | Step.allocateMemory r sz idx => some (r, sz, idx)
  | _ => none

/-- The (region, offset) of a bind call, if the step is one. -/
def bindOf : Step → Option (Region × Nat)
  | Step.bindBufferMemory r o => some (r, o)
  | Step.bindImageMemory r o => some (r, o)
  | _ => none

/-! ### Theorems over the host trace -/

/-- **C4** — the only memory regions ever passed to `vkMapMemory` are the
source buffer's (before the submission) and the destination buffer's
(after the device-idle wait); the protected image's memory is never
mapped. -/
theorem protected_image_memory_never_mapped (env : Env) :
    (mainSteps env).filterMap mappedRegion = [Region.srcMem, Region.dstMem] ∧
    ((mainSteps env).takeWhile (fun s => !isQueueSubmit s)).filterMap mappedRegion =
      [Region.srcMem] ∧
    ((mainSteps env).dropWhile (fun s => !isDeviceWaitIdle s)).filterMap mappedRegion =
      [Region.dstMem] := by
  refine ⟨rfl, rfl, rfl⟩

/-- **C5** — with fewer than two positional arguments (`argc < 3`) the
program reports the usage error (via `g_error`, to standard error),
terminates with a non-zero status, and executes no step at all — in
particular no device or context initialization. -/
theorem usage_error_fails_fast (argc : Nat) (env : Env) (f : Nat → Bool)
    (h : argc < 3) :
    (mainRun argc env f).1 = [] ∧
    (mainRun argc env f).2 = Outcome.usageError usageMsg ∧
    exitStatusZero (mainRun argc env f).2 = false := by
  simp [mainRun, h, exitStatusZero]

/-- Witness for C5: one positional argument (`argc = 2`). -/
theorem usage_error_fails_fast_witness :
    2 < 3 ∧ (mainRun 2 env0 (fun _ => false)).1 = [] :=
  ⟨by decide, (usage_error_fails_fast 2 env0 (fun _ => false) (by decide)).1⟩

/-- **C7** — `init_image` constructs the three resources in the fixed
order Source Buffer (transfer-source, exclusive), Protected Image (2-D,
RGBA8, transfer-source|transfer-destination, optimal tiling, protected
flag), Destination Buffer (transfer-destination, exclusive); each
allocation takes the queried requirement size and a type chosen by the
classifier with request pairs (host, ¬protected), (¬host, protected),
(host, ¬protected); each resource is bound at offset 0; and each
query/allocate/bind triple is consecutive. -/
theorem resource_construction_order (env : Env) :
    (init_image_steps env).filter isResourceCreation =
      [ Step.createBuffer env.size VK_BUFFER_USAGE_TRANSFER_SRC_BIT VK_SHARING_MODE_EXCLUSIVE,
        Step.createImage VK_IMAGE_TYPE_2D VK_FORMAT_R8G8B8A8_UNORM
          { width := env.width, height := env.height, depth := 1 } 1 1 1
          VK_IMAGE_TILING_OPTIMAL
          (VK_IMAGE_USAGE_TRANSFER_SRC_BIT ||| VK_IMAGE_USAGE_TRANSFER_DST_BIT)
          VK_IMAGE_CREATE_PROTECTED_BIT,
        Step.createBuffer env.size VK_BUFFER_USAGE_TRANSFER_DST_BIT VK_SHARING_MODE_EXCLUSIVE ] ∧
    (init_image_steps env).filterMap allocationOf =
      [ (Region.srcMem, env.srcReqSize, find_image_memory env.mp env.srcReqBits true false),
        (Region.dstImageMem, env.imgReqSize, find_image_memory env.mp env.imgReqBits false true),
        (Region.dstMem, env.dstReqSize, find_image_memory env.mp env.dstReqBits true false) ] ∧
    (init_image_steps env).filterMap bindOf =
      [ (Region.srcMem, 0), (Region.dstImageMem, 0), (Region.dstMem, 0) ] ∧
    ((init_image_steps env).drop 2).take 3 =
      [ Step.getBufferMemoryRequirements,
        Step.allocateMemory Region.srcMem env.srcReqSize
          (find_image_memory env.mp env.srcReqBits true false),
        Step.bindBufferMemory Region.srcMem 0 ] ∧
    ((init_image_steps env).drop 10).take 3 =
      [ Step.getImageMemoryRequirements,
        Step.allocateMemory Region.dstImageMem env.imgReqSize
          (find_image_memory env.mp env.imgReqBits false true),
        Step.bindImageMemory Region.dstImageMem 0 ] ∧
    ((init_image_steps env).drop 14).take 3 =
      [ Step.getBufferMemoryRequirements,
        Step.allocateMemory Region.dstMem env.dstReqSize
          (find_image_memory env.mp env.dstReqBits true false),
        Step.bindBufferMemory Region.dstMem 0 ] := by
  refine ⟨rfl, rfl, rfl, rfl, rfl, rfl⟩

/-- **C8** (code bug evidence) — the output write (`gdk_pixbuf_save`)
does sit strictly after the device-idle wait, which sits strictly after
the single submission (in `mainSteps env0`, index 33 is the
`vkQueueSubmit` call, index 34 the idle wait, index 37 the save). But the
source discards `vkQueueSubmit`'s `VkResult` (C line 390) — as it does
every API result after `init_vk`'s asserts — so a run whose submission
fails still executes `gdk_pixbuf_save` and exits with status 0: a
failure before the write neither aborts the process nor prevents the
output file from being written. -/
theorem transfer_failure_still_writes_output :
    ((mainSteps env0)[33]? = some (Step.queueSubmit 1 1) ∧
     (mainSteps env0)[34]? = some Step.deviceWaitIdle ∧
     (mainSteps env0)[37]? = some Step.savePng ∧
     ((mainSteps env0).filter isQueueSubmit).length = 1) ∧
    checksResult (Step.queueSubmit 1 1) = false ∧
    Step.savePng ∈ runTrace (fun i => i == 33) (mainSteps env0) ∧
    runOutcome (fun i => i == 33) (mainSteps env0) = Outcome.ok ∧
    exitStatusZero (runOutcome (fun i => i == 33) (mainSteps env0)) = true := by
  refine ⟨⟨by decide, by decide, by decide, by decide⟩, by decide, by decide, by decide,
    by decide⟩
